import Mathlib

/-!
Shallow embedding of `src/server.js` (IAN TECH WhatsApp pairing-code server).

Randomness (`Math.random`), the md5 digest of a seed, timestamps
(`Date.now()`), the external Baileys socket events and the QR renderer
(`QRCode.toDataURL`) are modelled as explicit parameters; everything else is a
direct translation of the JavaScript source.  Times are in milliseconds as
`Nat`.  The JavaScript `Map` that backs the pairing-code registry is modelled
as an association list with JS `Map` semantics (`set` replaces in place or
appends, `delete` removes the key, insertion order preserved).
-/

namespace PairingServer

/-- Configuration constants from the CONFIG object in `src/server.js`. -/
def CODE_LENGTH : Nat := 8

def CODE_EXPIRY_MINUTES : Nat := 10

/-- Expiry TTL in milliseconds: `CONFIG.CODE_EXPIRY_MINUTES * 60 * 1000`. -/
def CODE_EXPIRY_MS : Nat := CODE_EXPIRY_MINUTES * 60 * 1000

def MAX_AUTO_ACTIVATION_ATTEMPTS : Nat := 3

/-- Status of a pairing record: the string values `pending`, `linked`,
`expired` used by the source. -/
inductive PairStatus where
  | pending
  | linked
  | expired
deriving DecidableEq, Repr

/-- A pairing record as stored in the `pairingCodes` map
(`generateNewPairingCode`, lines 375-390 of `src/server.js`).
The JS `Date` values are milliseconds-since-epoch naturals. -/
structure PairingRecord where
  code : String
  displayCode : String
  phoneNumber : Option String
  country : Option String
  sessionId : String
  status : PairStatus
  createdAt : Nat
  expiresAt : Nat
  linkedAt : Option Nat
  linkedTo : Option String
  qrData : Option String
  qrImage : Option String
  attempts : Nat
deriving DecidableEq, Repr

/-- The in-memory registry `pairingCodes : Map<string, record>`, as an
association list in insertion order. -/
abbrev Registry := List (String × PairingRecord)

/-- JS `Map.prototype.has`. -/
def mapHas (reg : Registry) (k : String) : Bool :=
  reg.any (fun p => p.1 == k)

/-- JS `Map.prototype.get` (first entry with the key; keys are unique in a
real JS `Map`, an invariant proved below). -/
def mapGet (reg : Registry) (k : String) : Option PairingRecord :=
  (reg.find? (fun p => p.1 == k)).map Prod.snd

/-- JS `Map.prototype.set`: replace the value in place if the key is present,
otherwise append a new entry. -/
def mapSet (reg : Registry) (k : String) (v : PairingRecord) : Registry :=
  if mapHas reg k then
    reg.map (fun p => if p.1 == k then (k, v) else p)
  else
    reg ++ [(k, v)]

/-- JS `Map.prototype.delete`. -/
def mapDelete (reg : Registry) (k : String) : Registry :=
  reg.filter (fun p => !(p.1 == k))

/-- Keys of the registry, in order. -/
def keysOf (reg : Registry) : List String :=
  reg.map Prod.fst

/-! ### Code generator (`generateAlphanumericCode`, lines 53-69) -/

/-- The alphabet `ABCDEFGHIJKLMNOPQRSTUVWXYZ0123456789` of
`generateAlphanumericCode`. -/
def alnumChars : List Char := "ABCDEFGHIJKLMNOPQRSTUVWXYZ0123456789".toList

/-- One 8-character draw of the loop in `generateAlphanumericCode`:
`chars.charAt(Math.floor(Math.random() * chars.length))`, `CODE_LENGTH`
times.  `rand` models the stream of `Math.floor(Math.random() * 36)` values,
consumed sequentially; attempt `t` consumes positions `8*t .. 8*t+7`. -/
def drawAttempt (rand : Nat → Fin 36) (t : Nat) : String :=
  String.mk ((List.range CODE_LENGTH).map
    (fun i => alnumChars.getD (rand (CODE_LENGTH * t + i)).val 'A'))

/-- Test `/[A-Z]/.test(code)`. -/
def hasLetters (s : String) : Bool :=
  s.data.any (fun c => 'A' ≤ c && c ≤ 'Z')

/-- Test `/[0-9]/.test(code)`. -/
def hasNumbers (s : String) : Bool :=
  s.data.any (fun c => '0' ≤ c && c ≤ '9')

/-- `generateAlphanumericCode`: draw 8 characters; if the draw lacks a letter
or lacks a digit, recurse.  The JS recursion has no bound; `fuel` makes the
embedding total, with `none` standing for "still retrying". -/
def generateAlphanumericCode (rand : Nat → Fin 36) : Nat → Nat → Option String
  | 0, _ => none
  | fuel + 1, t =>
    let code := drawAttempt rand t
    if !(hasLetters code) || !(hasNumbers code) then
      generateAlphanumericCode rand fuel (t + 1)
    else
      some code

/-! ### Display codes (`generateDisplayCode`, lines 75-92) -/

/-- The restricted alphabet `0123456789ABCDEFGHJKLMNPQRSTUVWXYZ` of
`generateDisplayCode` (no `I`, no `O`). -/
def displayChars : List Char := "0123456789ABCDEFGHJKLMNPQRSTUVWXYZ".toList

/-- `generateDisplayCode(seed)`.  When a seed is given the source hashes it
with md5 and maps consecutive hex byte pairs through
`parseInt(hash.substring(2i, 2i+2), 16) % chars.length`; `seedHash i` models
the `i`-th byte of the digest.  Without a seed it draws
`Math.floor(Math.random() * chars.length)`, modelled by `rand`.  The result is
`code.substring(0, 4) + '-' + code.substring(4)`. -/
def generateDisplayCode (seedHash : Option (Nat → Nat)) (rand : Nat → Fin 34) :
    String :=
  let idxs : List Nat :=
    match seedHash with
    | some h => (List.range 8).map (fun i => h i % displayChars.length)
    | none => (List.range 8).map (fun i => (rand i).val)
  let cs : List Char := idxs.map (fun j => displayChars.getD j '0')
  String.mk (cs.take 4) ++ "-" ++ String.mk (cs.drop 4)

/-! ### Phone normalizer (`validateAndFormatPhoneNumber`, lines 95-145) -/

/-- The result shape of `validateAndFormatPhoneNumber`.  On failure the JS
object carries only `isValid` and `error`; the other fields are modelled as
empty strings there. -/
structure PhoneResult where
  isValid : Bool
  formatted : String
  countryCode : String
  country : String
  nationalNumber : String
  error : Option String
deriving DecidableEq, Repr

/-- JS `String.prototype.trim`: drop whitespace from both ends. -/
def jsTrim (s : String) : String :=
  String.mk
    (((s.data.dropWhile Char.isWhitespace).reverse.dropWhile
      Char.isWhitespace).reverse)

/-- Strip all non-digits: `cleanNumber.replace(/\D/g, '')`. -/
def stripNonDigits (s : String) : String :=
  String.mk (s.data.filter Char.isDigit)

/-- `validateAndFormatPhoneNumber`.  The two library parses
(libphonenumber-js then the `phone` package) are external; `libResult`
models the first library result accepted by its own validity check, `none`
when both parses fail.  The remaining digits-only fallback is translated
directly from lines 126-140. -/
def validateAndFormatPhoneNumber (libResult : Option PhoneResult)
    (phoneNumber : String) : PhoneResult :=
  match libResult with
  | some r => r
  | none =>
    let digitsOnly := stripNonDigits (jsTrim phoneNumber)
    if 8 ≤ digitsOnly.length ∧ digitsOnly.length ≤ 15 then
      let cut := min 3 (digitsOnly.length - 7)
      { isValid := true
        formatted := "+" ++ digitsOnly
        countryCode := String.mk (digitsOnly.data.take cut)
        country := "Unknown"
        nationalNumber := String.mk (digitsOnly.data.drop cut)
        error := none }
    else
      { isValid := false
        formatted := ""
        countryCode := ""
        country := ""
        nationalNumber := ""
        error := some "Invalid phone number format" }

/-! ### Pairing-code management (`generateNewPairingCode`, lines 369-405) -/

/-- The record object stored by `generateNewPairingCode` (lines 375-390).
`code` and `sessionId` are the freshly drawn random values, `seedHash` the
md5 digest of `sessionId` that seeds the display code, `nowMs` is
`Date.now()`, and `qrData`/`qrImage` are the global `currentQR` and
`qrImageDataUrl` snapshots. -/
def freshRecord (code sessionId : String) (seedHash : Nat → Nat) (nowMs : Nat)
    (qrData qrImage : Option String) (phoneNumber country : Option String) :
    PairingRecord :=
  { code := code
    displayCode := generateDisplayCode (some seedHash) (fun _ => 0)
    phoneNumber := phoneNumber
    country := country
    sessionId := sessionId
    status := .pending
    createdAt := nowMs
    expiresAt := nowMs + CODE_EXPIRY_MS
    linkedAt := none
    linkedTo := none
    qrData := qrData
    qrImage := qrImage
    attempts := 0 }

/-- The value `{ code, displayCode, sessionId, expiresAt, country }` returned
by `generateNewPairingCode`. -/
structure GenReturn where
  code : String
  displayCode : String
  sessionId : String
  expiresAt : Nat
  country : Option String
deriving DecidableEq, Repr

/-- `generateNewPairingCode(phoneNumber, country)`: store a fresh pending
record under the drawn code via `Map.set` and return the summary object.
The expiry `setTimeout` callback is modelled separately as
`expiryCleanup`. -/
def generateNewPairingCode (code sessionId : String) (seedHash : Nat → Nat)
    (nowMs : Nat) (qrData qrImage : Option String)
    (phoneNumber country : Option String) (reg : Registry) :
    Registry × GenReturn :=
  let r := freshRecord code sessionId seedHash nowMs qrData qrImage
    phoneNumber country
  (mapSet reg code r,
   { code := code
     displayCode := r.displayCode
     sessionId := sessionId
     expiresAt := r.expiresAt
     country := country })

/-- The expiry callback scheduled by `generateNewPairingCode`
(lines 397-402): fired `CODE_EXPIRY_MS` after creation, it deletes the entry
only if the code is still present with status `pending`. -/
def expiryCleanup (code : String) (reg : Registry) : Registry :=
  match mapGet reg code with
  | some r => if r.status = .pending then mapDelete reg code else reg
  | none => reg

/-! ### Connection manager (`initWhatsApp`, lines 148-366) -/

/-- The process-wide mutable state touched by the connection handlers. -/
structure BotState where
  botStatus : String
  currentQR : Option String
  qrImageDataUrl : Option String
  pairingCodes : Registry
  lastGeneratedCode : Option String
  autoActivationAttempts : Nat
deriving DecidableEq, Repr

/-- Body of the record loop in the `connection === 'open'` branch
(lines 268-274): a `pending` record becomes `linked` with `linkedAt = now`;
any other record is left as it is. -/
def linkIfPending (nowMs : Nat) (r : PairingRecord) : PairingRecord :=
  if r.status = .pending then { r with status := .linked, linkedAt := some nowMs }
  else r

/-- The `connection === 'open'` branch of the `connection.update` handler
(lines 259-287): set `botStatus` to `online`, reset the attempt counter, and
transition every `pending` record to `linked` with `linkedAt = now`. -/
def onConnectionOpen (nowMs : Nat) (st : BotState) : BotState :=
  { st with
    botStatus := "online"
    autoActivationAttempts := 0
    pairingCodes := st.pairingCodes.map (fun p => (p.1, linkIfPending nowMs p.2)) }

/-- The `qr && autoActivate` branch of the `connection.update` handler
(lines 221-257): capture the QR, set `qr_ready`, render the image
(`encodedQr` models `QRCode.toDataURL(qr)`), generate a pairing record with
no phone number, overwrite `lastGeneratedCode` with the raw code, and
increment `autoActivationAttempts`.  When the counter has reached
`MAX_AUTO_ACTIVATION_ATTEMPTS` the source only prints instructions; no state
update differs. -/
def onQrEvent (qr : String) (autoActivate : Bool) (encodedQr : String)
    (code sessionId : String) (seedHash : Nat → Nat) (nowMs : Nat)
    (st : BotState) : BotState :=
  if autoActivate then
    let gen := generateNewPairingCode code sessionId seedHash nowMs
      (some qr) (some encodedQr) none none st.pairingCodes
    { st with
      currentQR := some qr
      botStatus := "qr_ready"
      qrImageDataUrl := some encodedQr
      pairingCodes := gen.1
      lastGeneratedCode := some code
      autoActivationAttempts := st.autoActivationAttempts + 1 }
  else st

/-- Outcome of the `catch` block of `initWhatsApp` (lines 349-365). -/
structure InitFailureOutcome where
  botStatus : String
  delayMs : Nat
  attemptsAtRetry : Nat
  retryAutoActivate : Bool
deriving DecidableEq, Repr

/-- The `catch` block of `initWhatsApp`: set `botStatus` to `error`; below
the cap schedule `initWhatsApp(true)` after 10 s leaving the counter alone,
at or beyond the cap schedule it after 30 s resetting the counter to 0. -/
def onInitFailure (autoActivationAttempts : Nat) : InitFailureOutcome :=
  if autoActivationAttempts < MAX_AUTO_ACTIVATION_ATTEMPTS then
    { botStatus := "error"
      delayMs := 10000
      attemptsAtRetry := autoActivationAttempts
      retryAutoActivate := true }
  else
    { botStatus := "error"
      delayMs := 30000
      attemptsAtRetry := 0
      retryAutoActivate := true }

/-! ### HTTP endpoints (lines 1080-1215) -/

/-- A JSON response of the two POST endpoints.  `qrImage` is `none` when the
field is absent from the body (as in `/generate-code`), `some none` when the
field is present and explicitly `null` (the online branch of `/getqr`). -/
structure ApiResponse where
  status : Nat
  success : Bool
  code : Option String
  displayCode : Option String
  phoneNumber : Option String
  country : Option String
  sessionId : Option String
  expiresAt : Option Nat
  qrImage : Option (Option String)
  message : String
deriving DecidableEq, Repr

/-- A failure body `{ success:false, message }` with the given status. -/
def errorResponse (status : Nat) (message : String) : ApiResponse :=
  { status := status, success := false, code := none, displayCode := none
    phoneNumber := none, country := none, sessionId := none
    expiresAt := none, qrImage := none, message := message }

/-- `app.post('/generate-code')` (lines 1080-1131).  `body` is the request's
`phoneNumber` field (`none` when missing); `libResult` feeds the phone
normalizer; `code`, `sessionId`, `seedHash`, `nowMs` model the randomness and
clock used by `generateNewPairingCode`; `qrData`/`qrImage` are the current
global QR snapshots. -/
def generateCodeEndpoint (botStatus : String) (body : Option String)
    (libResult : Option PhoneResult) (code sessionId : String)
    (seedHash : Nat → Nat) (nowMs : Nat) (qrData qrImage : Option String)
    (reg : Registry) : Registry × ApiResponse :=
  match body with
  | none => (reg, errorResponse 400 "Please enter a phone number")
  | some pn =>
    let v := validateAndFormatPhoneNumber libResult pn
    if v.isValid = false then
      (reg, errorResponse 400 "Invalid phone number format")
    else if botStatus ≠ "qr_ready" ∧ botStatus ≠ "online" then
      (reg, errorResponse 503 "Service is connecting. Please wait a moment...")
    else
      let gen := generateNewPairingCode code sessionId seedHash nowMs
        qrData qrImage (some v.formatted) (some v.country) reg
      (gen.1,
       { status := 200
         success := true
         code := some gen.2.code
         displayCode := some gen.2.displayCode
         phoneNumber := some v.formatted
         country := some v.country
         sessionId := some gen.2.sessionId
         expiresAt := some gen.2.expiresAt
         qrImage := none
         message := "Pairing code generated successfully" })

/-- `app.post('/getqr')` (lines 1133-1215).  `encode` models
`QRCode.toDataURL`; when the global `qrImageDataUrl` is not yet set the
handler computes it from `currentQR`. -/
def getqrEndpoint (botStatus : String) (currentQR qrImageDataUrl : Option String)
    (encode : String → String) (body : Option String)
    (libResult : Option PhoneResult) (code sessionId : String)
    (seedHash : Nat → Nat) (nowMs : Nat) (reg : Registry) :
    Registry × ApiResponse :=
  match body with
  | none => (reg, errorResponse 400 "Please enter a phone number")
  | some pn =>
    let v := validateAndFormatPhoneNumber libResult pn
    if v.isValid = false then
      (reg, errorResponse 400 "Invalid phone number format")
    else
      match currentQR with
      | some q =>
        if botStatus = "qr_ready" then
          let img := qrImageDataUrl.getD (encode q)
          let gen := generateNewPairingCode code sessionId seedHash nowMs
            (some q) (some img) (some v.formatted) (some v.country) reg
          (gen.1,
           { status := 200
             success := true
             code := some gen.2.code
             displayCode := some gen.2.displayCode
             phoneNumber := some v.formatted
             country := some v.country
             sessionId := some gen.2.sessionId
             expiresAt := some gen.2.expiresAt
             qrImage := some (some img)
             message := "QR code ready for scanning" })
        else if botStatus = "online" then
          let gen := generateNewPairingCode code sessionId seedHash nowMs
            (some q) qrImageDataUrl (some v.formatted) (some v.country) reg
          (gen.1,
           { status := 200
             success := true
             code := some gen.2.code
             displayCode := some gen.2.displayCode
             phoneNumber := some v.formatted
             country := some v.country
             sessionId := some gen.2.sessionId
             expiresAt := some gen.2.expiresAt
             qrImage := some none
             message := "Service is online. Use the pairing code to link." })
        else
          (reg, errorResponse 503 "Service is connecting. Please wait...")
      | none =>
        if botStatus = "online" then
          let gen := generateNewPairingCode code sessionId seedHash nowMs
            none qrImageDataUrl (some v.formatted) (some v.country) reg
          (gen.1,
           { status := 200
             success := true
             code := some gen.2.code
             displayCode := some gen.2.displayCode
             phoneNumber := some v.formatted
             country := some v.country
             sessionId := some gen.2.sessionId
             expiresAt := some gen.2.expiresAt
             qrImage := some none
             message := "Service is online. Use the pairing code to link." })
        else
          (reg, errorResponse 503 "Service is connecting. Please wait...")

/-! ### Concrete sample data used by witnesses and counterexamples -/

/-- A freshly generated (pending) record at time 100. -/
def demoPending : PairingRecord :=
  freshRecord "AAAA1111" "SID1" (fun _ => 0) 100 none none none none

/-- A record that was linked at time 150. -/
def demoLinked : PairingRecord :=
  { demoPending with
    code := "BBBB2222"
    status := .linked
    linkedAt := some 150 }

/-- A sample process state with one pending and one linked record. -/
def demoState : BotState :=
  { botStatus := "qr_ready"
    currentQR := some "qr-payload"
    qrImageDataUrl := some "img-data-url"
    pairingCodes := [("AAAA1111", demoPending), ("BBBB2222", demoLinked)]
    lastGeneratedCode := none
    autoActivationAttempts := 1 }

/-! ### Registry lemmas -/

theorem mapHas_iff_mem_keys (reg : Registry) (k : String) :
    mapHas reg k = true ↔ k ∈ keysOf reg := by
  simp [mapHas, keysOf, List.any_eq_true, List.mem_map]

theorem find?_eq_none_of_has_false (reg : Registry) (k : String)
    (h : mapHas reg k = false) : reg.find? (fun p => p.1 == k) = none := by
  rw [List.find?_eq_none]
  intro p hp
  exact List.any_eq_false.mp h p hp

theorem mapGet_set_replace (reg : Registry) (k : String) (v : PairingRecord)
    (h : mapHas reg k = true) :
    mapGet (reg.map (fun p => if p.1 == k then (k, v) else p)) k = some v := by
  induction reg with
  | nil => simp [mapHas] at h
  | cons a t ih =>
    by_cases ha : (a.1 == k) = true
    · rw [List.map_cons, if_pos ha]
      unfold mapGet
      rw [List.find?_cons_of_pos (p := fun q : String × PairingRecord => q.1 == k) _ (by simp)]
      rfl
    · have ht : mapHas t k = true := by
        have hb : (a.1 == k) = false := by simpa using ha
        simpa [mapHas, List.any_cons, hb] using h
      rw [List.map_cons, if_neg ha]
      unfold mapGet
      rw [List.find?_cons_of_neg (p := fun q : String × PairingRecord => q.1 == k) _ ha]
      exact ih ht

theorem mapGet_mapSet_self (reg : Registry) (k : String) (v : PairingRecord) :
    mapGet (mapSet reg k v) k = some v := by
  unfold mapSet
  by_cases h : mapHas reg k
  · rw [if_pos h]; exact mapGet_set_replace reg k v h
  · rw [if_neg h]
    have h' : mapHas reg k = false := by simpa using h
    unfold mapGet
    rw [List.find?_append, find?_eq_none_of_has_false reg k h']
    simp [List.find?_cons_of_pos]

theorem mapGet_mapDelete_self (reg : Registry) (k : String) :
    mapGet (mapDelete reg k) k = none := by
  have hnone : (reg.filter (fun p => !(p.1 == k))).find?
      (fun p => p.1 == k) = none := by
    rw [List.find?_eq_none]
    intro p hp
    have hmem := List.of_mem_filter hp
    simpa using hmem
  simp [mapGet, mapDelete, hnone]

theorem mapGet_mapValues (g : PairingRecord → PairingRecord) (reg : Registry)
    (k : String) :
    mapGet (reg.map (fun p => (p.1, g p.2))) k = (mapGet reg k).map g := by
  induction reg with
  | nil => rfl
  | cons a t ih =>
    by_cases ha : (a.1 == k) = true
    · unfold mapGet
      rw [List.map_cons,
        List.find?_cons_of_pos (p := fun q : String × PairingRecord => q.1 == k) _ (by simpa using ha),
        List.find?_cons_of_pos (p := fun q : String × PairingRecord => q.1 == k) _ ha]
      rfl
    · unfold mapGet
      rw [List.map_cons,
        List.find?_cons_of_neg (p := fun q : String × PairingRecord => q.1 == k) _ (by simpa using ha),
        List.find?_cons_of_neg (p := fun q : String × PairingRecord => q.1 == k) _ ha]
      exact ih

theorem keysOf_mapSet (reg : Registry) (k : String) (v : PairingRecord) :
    keysOf (mapSet reg k v) =
      if mapHas reg k then keysOf reg else keysOf reg ++ [k] := by
  unfold mapSet keysOf
  by_cases h : mapHas reg k
  · rw [if_pos h, if_pos h, List.map_map]
    apply List.map_congr_left
    intro p _
    by_cases hp : (p.1 == k) = true
    · have hk : p.1 = k := beq_iff_eq.mp hp
      simp [Function.comp, hp, hk]
    · have hb : (p.1 == k) = false := by simpa using hp
      simp [Function.comp, hb]
  · rw [if_neg h, if_neg h]
    simp

theorem nodup_keys_mapSet (reg : Registry) (k : String) (v : PairingRecord)
    (h : (keysOf reg).Nodup) : (keysOf (mapSet reg k v)).Nodup := by
  rw [keysOf_mapSet]
  by_cases hk : mapHas reg k
  · rwa [if_pos hk]
  · rw [if_neg hk]
    have hk' : k ∉ keysOf reg := by
      intro hmem
      exact hk ((mapHas_iff_mem_keys reg k).mpr hmem)
    rw [List.nodup_append]
    refine ⟨h, List.nodup_singleton k, ?_⟩
    intro a ha hak
    rw [List.mem_singleton] at hak
    exact hk' (hak ▸ ha)

/-! ### List access lemma used by the code-generator proofs -/

theorem getD_mem_of_lt {l : List Char} {i : Nat} (h : i < l.length) (d : Char) :
    l.getD i d ∈ l := by
  rw [List.getD_eq_getElem?_getD, List.getElem?_eq_getElem h]
  exact List.getElem_mem h


/-! ## Claim theorems -/

/-- C1: when the external connection reports open, the handler transitions
every record whose status is `pending` to `linked` with `linkedAt` set to
the current time, and leaves every `linked` or `expired` record
unchanged. -/
theorem c1_open_links_pending (nowMs : Nat) (st : BotState) (c : String)
    (r : PairingRecord) (h : mapGet st.pairingCodes c = some r) :
    mapGet (onConnectionOpen nowMs st).pairingCodes c =
      some (if r.status = .pending then
        { r with status := .linked, linkedAt := some nowMs }
      else r) := by
  show mapGet (st.pairingCodes.map
    (fun p => (p.1, linkIfPending nowMs p.2))) c = _
  rw [mapGet_mapValues, h]
  simp [linkIfPending]

/-- Witness for C1: applying the open handler to a concrete two-record
state links the pending record. -/
theorem c1_open_links_pending_witness :
    mapGet (onConnectionOpen 500 demoState).pairingCodes "AAAA1111" =
      some (if demoPending.status = .pending then
        { demoPending with status := .linked, linkedAt := some 500 }
      else demoPending) :=
  c1_open_links_pending 500 demoState "AAAA1111" demoPending (by decide)

/-- C2: a record created by `generateNewPairingCode` starts `pending` with
`expiresAt = createdAt + TTL`; the expiry action scheduled for that moment
deletes the entry exactly when it is still present with status `pending`,
and leaves a record that became `linked` (or `expired`) untouched. -/
theorem c2_expiry_deletes_only_pending (code sessionId : String)
    (seedHash : Nat → Nat) (nowMs : Nat) (qd qi pn co : Option String)
    (reg : Registry) (r : PairingRecord) (h : mapGet reg code = some r) :
    (freshRecord code sessionId seedHash nowMs qd qi pn co).status =
      .pending ∧
    (freshRecord code sessionId seedHash nowMs qd qi pn co).expiresAt =
      nowMs + CODE_EXPIRY_MS ∧
    mapGet (expiryCleanup code reg) code =
      (if r.status = .pending then none else some r) := by
  refine ⟨rfl, rfl, ?_⟩
  have hred : expiryCleanup code reg =
      if r.status = .pending then mapDelete reg code else reg := by
    unfold expiryCleanup
    rw [h]
  rw [hred]
  by_cases hs : r.status = .pending
  · rw [if_pos hs, if_pos hs]
    exact mapGet_mapDelete_self reg code
  · rw [if_neg hs, if_neg hs]
    exact h

/-- Witness for C2: the expiry action deletes a concrete still-pending
record. -/
theorem c2_expiry_deletes_only_pending_witness :
    mapGet (expiryCleanup "AAAA1111" [("AAAA1111", demoPending)])
        "AAAA1111" =
      (if demoPending.status = .pending then none else some demoPending) :=
  (c2_expiry_deletes_only_pending "AAAA1111" "SID1" (fun _ => 0) 100
    none none none none [("AAAA1111", demoPending)] demoPending
    (by decide)).2.2

/-- C3: every code returned by `generateAlphanumericCode` has length exactly
8, consists only of characters from `[A-Z0-9]`, and contains at least one
letter and at least one digit; a draw lacking either is rejected and
redrawn. -/
theorem c3_alphanumeric_code_mixed (rand : Nat → Fin 36) (fuel t : Nat)
    (code : String) (h : generateAlphanumericCode rand fuel t = some code) :
    code.length = CODE_LENGTH ∧
    (∀ c ∈ code.data, ('A' ≤ c ∧ c ≤ 'Z') ∨ ('0' ≤ c ∧ c ≤ '9')) ∧
    hasLetters code = true ∧ hasNumbers code = true := by
  induction fuel generalizing t with
  | zero => simp [generateAlphanumericCode] at h
  | succ n ih =>
    simp only [generateAlphanumericCode] at h
    by_cases hcond :
        (!(hasLetters (drawAttempt rand t)) ||
          !(hasNumbers (drawAttempt rand t))) = true
    · rw [if_pos hcond] at h
      exact ih (t + 1) h
    · rw [if_neg hcond] at h
      have hcode : drawAttempt rand t = code := Option.some.inj h
      have hboth : hasLetters (drawAttempt rand t) = true ∧
          hasNumbers (drawAttempt rand t) = true := by
        simpa using hcond
      subst hcode
      refine ⟨?_, ?_, hboth.1, hboth.2⟩
      · show ((List.range CODE_LENGTH).map _).length = CODE_LENGTH
        simp
      · intro c hc
        have hmem : c ∈ alnumChars := by
          rcases List.mem_map.mp hc with ⟨i, _, rfl⟩
          exact getD_mem_of_lt
            ((rand (CODE_LENGTH * t + i)).isLt.trans_eq (by decide)) 'A'
        have hall : ∀ c ∈ alnumChars,
            ('A' ≤ c ∧ c ≤ 'Z') ∨ ('0' ≤ c ∧ c ≤ '9') := by decide
        exact hall c hmem

/-- Witness for C3: a concrete random stream whose first draw alternates
letters and digits yields a mixed 8-character code. -/
theorem c3_alphanumeric_code_mixed_witness :
    ∃ s, generateAlphanumericCode
        (fun n => if n % 2 = 0 then (0 : Fin 36) else 26) 1 0 = some s ∧
      s.length = CODE_LENGTH ∧ hasLetters s = true ∧ hasNumbers s = true := by
  have h : generateAlphanumericCode
      (fun n => if n % 2 = 0 then (0 : Fin 36) else 26) 1 0 =
      some "A0A0A0A0" := by decide
  have hp := c3_alphanumeric_code_mixed _ 1 0 _ h
  exact ⟨"A0A0A0A0", h, hp.1, hp.2.2.1, hp.2.2.2⟩

/-- C4: every string returned by `generateDisplayCode`, seeded or not,
splits as two groups of 4 characters from the restricted unambiguous
alphabet joined by a hyphen. -/
theorem c4_display_code_format (seedHash : Option (Nat → Nat))
    (rand : Nat → Fin 34) :
    ∃ cs : List Char, cs.length = 8 ∧ (∀ c ∈ cs, c ∈ displayChars) ∧
      (generateDisplayCode seedHash rand).data =
        cs.take 4 ++ '-' :: cs.drop 4 := by
  have hlen : displayChars.length = 34 := by decide
  cases seedHash with
  | none =>
    refine ⟨(List.range 8).map
      (fun i => displayChars.getD (rand i).val '0'), by simp, ?_, ?_⟩
    · intro c hc
      rcases List.mem_map.mp hc with ⟨i, _, rfl⟩
      exact getD_mem_of_lt ((rand i).isLt.trans_eq hlen.symm) '0'
    · rfl
  | some h =>
    refine ⟨(List.range 8).map
      (fun i => displayChars.getD (h i % displayChars.length) '0'),
      by simp, ?_, ?_⟩
    · intro c hc
      rcases List.mem_map.mp hc with ⟨i, _, rfl⟩
      exact getD_mem_of_lt (Nat.mod_lt _ (by simp [hlen])) '0'
    · rfl

/-- C5: the digits-only fallback of the phone normalizer (both library
parses failed) accepts exactly when the stripped digit count is between 8
and 15; the country code then is the first `min 3 (length - 7)` digits and
the national number the rest (at least 7 digits). -/
theorem c5_fallback_validation (input : String) :
    ((validateAndFormatPhoneNumber none input).isValid = true ↔
      8 ≤ (stripNonDigits (jsTrim input)).length ∧
        (stripNonDigits (jsTrim input)).length ≤ 15) ∧
    ((validateAndFormatPhoneNumber none input).isValid = true →
      (validateAndFormatPhoneNumber none input).countryCode.length =
        min 3 ((stripNonDigits (jsTrim input)).length - 7) ∧
      (validateAndFormatPhoneNumber none input).countryCode.length ≤ 3 ∧
      7 ≤ (validateAndFormatPhoneNumber none input).nationalNumber.length ∧
      (validateAndFormatPhoneNumber none input).countryCode ++
        (validateAndFormatPhoneNumber none input).nationalNumber =
        stripNonDigits (jsTrim input) ∧
      (validateAndFormatPhoneNumber none input).formatted =
        "+" ++ stripNonDigits (jsTrim input)) := by
  have hdata : (stripNonDigits (jsTrim input)).length =
      (stripNonDigits (jsTrim input)).data.length := rfl
  unfold validateAndFormatPhoneNumber
  by_cases h8 : 8 ≤ (stripNonDigits (jsTrim input)).length ∧
      (stripNonDigits (jsTrim input)).length ≤ 15
  · rw [if_pos h8]
    refine ⟨by simpa using h8, fun _ => ?_⟩
    have hcut : min 3 ((stripNonDigits (jsTrim input)).length - 7) ≤
        (stripNonDigits (jsTrim input)).data.length := by
      rw [← hdata]; omega
    refine ⟨?_, ?_, ?_, ?_, rfl⟩
    · show (String.mk _).length = _
      show (List.take _ _).length = _
      rw [List.length_take]
      omega
    · show (String.mk _).length ≤ 3
      show (List.take _ _).length ≤ 3
      rw [List.length_take]
      omega
    · show 7 ≤ (String.mk _).length
      show 7 ≤ (List.drop _ _).length
      rw [List.length_drop]
      rw [← hdata]
      omega
    · show String.mk _ ++ String.mk _ = _
      exact congrArg String.mk (List.take_append_drop _ _)
  · rw [if_neg h8]
    constructor
    · simpa using h8
    · intro hv
      simp at hv

/-- Witness for C5: a 10-digit input is accepted by the fallback and splits
into a 3-digit country code and a 7-digit national number. -/
theorem c5_fallback_validation_witness :
    (validateAndFormatPhoneNumber none "0712345678").isValid = true ∧
    (validateAndFormatPhoneNumber none "0712345678").countryCode ++
      (validateAndFormatPhoneNumber none "0712345678").nationalNumber =
      stripNonDigits (jsTrim "0712345678") ∧
    (validateAndFormatPhoneNumber none "0712345678").countryCode.length ≤ 3 := by
  have h := c5_fallback_validation "0712345678"
  have hv : (validateAndFormatPhoneNumber none "0712345678").isValid = true :=
    h.1.mpr (by decide)
  exact ⟨hv, (h.2 hv).2.2.2.1, (h.2 hv).2.1⟩

/-- Counterexample to C7 as stated: when the generator's draw collides with
a code currently present, `generateNewPairingCode` keeps the colliding code
(no fresh code is obtained) and the stored entry no longer holds the
pre-existing record: it has been overwritten by the new pending one. -/
theorem c7_collision_counterexample :
    (generateNewPairingCode "AAAA1111" "SID2" (fun _ => 1) 200 none none
        none none [("AAAA1111", demoPending)]).2.code = "AAAA1111" ∧
    mapGet (generateNewPairingCode "AAAA1111" "SID2" (fun _ => 1) 200 none
        none none none [("AAAA1111", demoPending)]).1 "AAAA1111" ≠
      some demoPending := by
  decide

/-- C7 amended: a code stays unique as a registry key (`Map.set` preserves
key distinctness), but a colliding draw overwrites the record currently
stored under that code with the fresh pending record instead of obtaining a
fresh code. -/
theorem c7_unique_keys_collision_overwrites (code sessionId : String)
    (seedHash : Nat → Nat) (nowMs : Nat) (qd qi pn co : Option String)
    (reg : Registry) (h : (keysOf reg).Nodup) :
    (keysOf (generateNewPairingCode code sessionId seedHash nowMs qd qi pn
      co reg).1).Nodup ∧
    (generateNewPairingCode code sessionId seedHash nowMs qd qi pn co
      reg).2.code = code ∧
    mapGet (generateNewPairingCode code sessionId seedHash nowMs qd qi pn co
        reg).1 code =
      some (freshRecord code sessionId seedHash nowMs qd qi pn co) := by
  refine ⟨?_, rfl, ?_⟩
  · exact nodup_keys_mapSet reg code _ h
  · exact mapGet_mapSet_self reg code _

/-- Witness for the amended C7 at a concrete one-record registry. -/
theorem c7_unique_keys_collision_overwrites_witness :
    (keysOf (generateNewPairingCode "AAAA1111" "SID2" (fun _ => 1) 200 none
      none none none [("AAAA1111", demoPending)]).1).Nodup :=
  (c7_unique_keys_collision_overwrites "AAAA1111" "SID2" (fun _ => 1) 200
    none none none none [("AAAA1111", demoPending)] (by decide)).1

/-- Counterexample to C8 as stated: the auto-activation attempt counter is
not capped at the maximum of 3; a qr event with the counter already at the
maximum pushes it to 4. -/
theorem c8_counter_not_capped_counterexample :
    (onQrEvent "qr2" true "img2" "CCCC3333" "SID3" (fun _ => 2) 300
        { demoState with
          autoActivationAttempts := MAX_AUTO_ACTIVATION_ATTEMPTS
        }).autoActivationAttempts =
      MAX_AUTO_ACTIVATION_ATTEMPTS + 1 := by
  decide

/-- C8 amended: every qr event in auto-activation mode increments the
attempt counter by one with no cap; once the counter is at or beyond the
maximum of 3 the handler merely logs instructions and otherwise behaves
identically, still publishing the QR, setting `qr_ready` and generating a
fresh pairing record. -/
theorem c8_qr_event_increments_unbounded (qr encodedQr code sessionId :
      String) (seedHash : Nat → Nat) (nowMs : Nat) (st : BotState)
    (_h : MAX_AUTO_ACTIVATION_ATTEMPTS ≤ st.autoActivationAttempts) :
    (onQrEvent qr true encodedQr code sessionId seedHash nowMs
      st).autoActivationAttempts = st.autoActivationAttempts + 1 ∧
    (onQrEvent qr true encodedQr code sessionId seedHash nowMs
      st).botStatus = "qr_ready" ∧
    (onQrEvent qr true encodedQr code sessionId seedHash nowMs
      st).currentQR = some qr ∧
    mapGet (onQrEvent qr true encodedQr code sessionId seedHash nowMs
        st).pairingCodes code =
      some (freshRecord code sessionId seedHash nowMs (some qr)
        (some encodedQr) none none) := by
  refine ⟨rfl, rfl, rfl, ?_⟩
  exact mapGet_mapSet_self st.pairingCodes code _

/-- Witness for the amended C8: concrete qr event with the counter at the
maximum still increments it and still registers a record. -/
theorem c8_qr_event_increments_unbounded_witness :
    (onQrEvent "qr3" true "img3" "DDDD4444" "SID4" (fun _ => 3) 400
      { demoState with autoActivationAttempts := 3 }).autoActivationAttempts =
      3 + 1 :=
  (c8_qr_event_increments_unbounded "qr3" "img3" "DDDD4444" "SID4"
    (fun _ => 3) 400 { demoState with autoActivationAttempts := 3 }
    (by decide)).1

/-- C9: a hard initialization failure always schedules another attempt
(never gives up permanently): below the attempt cap with the fixed 10 s
delay and the counter kept, at or beyond the cap with the longer 30 s
cooldown and the counter reset to zero. -/
theorem c9_init_failure_always_retries (a : Nat) :
    (onInitFailure a).retryAutoActivate = true ∧
    0 < (onInitFailure a).delayMs ∧
    (onInitFailure a).botStatus = "error" ∧
    (onInitFailure a).delayMs =
      (if a < MAX_AUTO_ACTIVATION_ATTEMPTS then 10000 else 30000) ∧
    (onInitFailure a).attemptsAtRetry =
      (if a < MAX_AUTO_ACTIVATION_ATTEMPTS then a else 0) := by
  unfold onInitFailure
  by_cases hlt : a < MAX_AUTO_ACTIVATION_ATTEMPTS
  · simp [hlt]
  · simp [hlt]

/-- C6: POST /generate-code responds 400 with `success:false` exactly when
the phone number is missing or fails validation; 503 with `success:false`
exactly when the number is valid but the bot status is neither `qr_ready`
nor `online`; and 200 with `success:true` and the `code`, `displayCode`,
`phoneNumber`, `country`, `sessionId`, `expiresAt` payload fields exactly
when the number is valid and the status is `qr_ready` or `online`. -/
theorem c6_generate_code_responses (botStatus : String) (body : Option String)
    (libResult : Option PhoneResult) (code sessionId : String)
    (seedHash : Nat → Nat) (nowMs : Nat) (qd qi : Option String)
    (reg : Registry) :
    let resp := (generateCodeEndpoint botStatus body libResult code sessionId
      seedHash nowMs qd qi reg).2
    ((resp.status = 400 ∧ resp.success = false) ↔
      (body = none ∨ ∃ pn, body = some pn ∧
        (validateAndFormatPhoneNumber libResult pn).isValid = false)) ∧
    ((resp.status = 503 ∧ resp.success = false) ↔
      (∃ pn, body = some pn ∧
        (validateAndFormatPhoneNumber libResult pn).isValid = true ∧
        botStatus ≠ "qr_ready" ∧ botStatus ≠ "online")) ∧
    ((resp.status = 200 ∧ resp.success = true ∧ resp.code.isSome ∧
        resp.displayCode.isSome ∧ resp.phoneNumber.isSome ∧
        resp.country.isSome ∧ resp.sessionId.isSome ∧
        resp.expiresAt.isSome) ↔
      (∃ pn, body = some pn ∧
        (validateAndFormatPhoneNumber libResult pn).isValid = true ∧
        (botStatus = "qr_ready" ∨ botStatus = "online"))) := by
  intro resp
  cases body with
  | none =>
    refine ⟨?_, ?_, ?_⟩ <;>
      simp [resp, generateCodeEndpoint, errorResponse]
  | some pn =>
    by_cases hval : (validateAndFormatPhoneNumber libResult pn).isValid = true
    · by_cases hstat : botStatus ≠ "qr_ready" ∧ botStatus ≠ "online"
      · have hresp : resp = errorResponse 503
            "Service is connecting. Please wait a moment..." := by
          show (generateCodeEndpoint _ _ _ _ _ _ _ _ _ _).2 = _
          simp only [generateCodeEndpoint]
          rw [if_neg (by simp [hval]), if_pos hstat]
        refine ⟨?_, ?_, ?_⟩ <;>
          simp [hresp, errorResponse, hval, hstat.1, hstat.2]
      · have hor : botStatus = "qr_ready" ∨ botStatus = "online" := by
          by_contra hc
          push_neg at hc
          exact hstat ⟨hc.1, hc.2⟩
        have hresp : resp =
            { status := 200
              success := true
              code := some (generateNewPairingCode code sessionId seedHash
                nowMs qd qi
                (some (validateAndFormatPhoneNumber libResult pn).formatted)
                (some (validateAndFormatPhoneNumber libResult pn).country)
                reg).2.code
              displayCode := some (generateNewPairingCode code sessionId
                seedHash nowMs qd qi
                (some (validateAndFormatPhoneNumber libResult pn).formatted)
                (some (validateAndFormatPhoneNumber libResult pn).country)
                reg).2.displayCode
              phoneNumber :=
                some (validateAndFormatPhoneNumber libResult pn).formatted
              country :=
                some (validateAndFormatPhoneNumber libResult pn).country
              sessionId := some (generateNewPairingCode code sessionId
                seedHash nowMs qd qi
                (some (validateAndFormatPhoneNumber libResult pn).formatted)
                (some (validateAndFormatPhoneNumber libResult pn).country)
                reg).2.sessionId
              expiresAt := some (generateNewPairingCode code sessionId
                seedHash nowMs qd qi
                (some (validateAndFormatPhoneNumber libResult pn).formatted)
                (some (validateAndFormatPhoneNumber libResult pn).country)
                reg).2.expiresAt
              qrImage := none
              message := "Pairing code generated successfully" } := by
          show (generateCodeEndpoint _ _ _ _ _ _ _ _ _ _).2 = _
          simp only [generateCodeEndpoint]
          rw [if_neg (by simp [hval]), if_neg hstat]
        refine ⟨?_, ?_, ?_⟩ <;> simp [hresp, hval, hor]
        tauto
    · have hresp : resp = errorResponse 400 "Invalid phone number format" := by
        show (generateCodeEndpoint _ _ _ _ _ _ _ _ _ _).2 = _
        simp only [generateCodeEndpoint]
        rw [if_pos (by simpa using hval)]
      refine ⟨?_, ?_, ?_⟩ <;>
        simp [hresp, errorResponse, hval]

/-- C10: POST /getqr with a phone number that passes validation while the
bot status is `online` responds 200 with `success:true` and `qrImage`
explicitly null, while still creating and returning a fresh pairing record
(`code`, `displayCode`, `sessionId`, `expiresAt`). -/
theorem c10_getqr_online_null_qr (currentQR qrImageDataUrl : Option String)
    (encode : String → String) (libResult : Option PhoneResult)
    (pn code sessionId : String) (seedHash : Nat → Nat) (nowMs : Nat)
    (reg : Registry)
    (hval : (validateAndFormatPhoneNumber libResult pn).isValid = true) :
    (getqrEndpoint "online" currentQR qrImageDataUrl encode (some pn)
      libResult code sessionId seedHash nowMs reg).2.status = 200 ∧
    (getqrEndpoint "online" currentQR qrImageDataUrl encode (some pn)
      libResult code sessionId seedHash nowMs reg).2.success = true ∧
    (getqrEndpoint "online" currentQR qrImageDataUrl encode (some pn)
      libResult code sessionId seedHash nowMs reg).2.qrImage = some none ∧
    (getqrEndpoint "online" currentQR qrImageDataUrl encode (some pn)
      libResult code sessionId seedHash nowMs reg).2.code = some code ∧
    (getqrEndpoint "online" currentQR qrImageDataUrl encode (some pn)
      libResult code sessionId seedHash nowMs
      reg).2.displayCode.isSome = true ∧
    (getqrEndpoint "online" currentQR qrImageDataUrl encode (some pn)
      libResult code sessionId seedHash nowMs reg).2.sessionId =
      some sessionId ∧
    (getqrEndpoint "online" currentQR qrImageDataUrl encode (some pn)
      libResult code sessionId seedHash nowMs reg).2.expiresAt =
      some (nowMs + CODE_EXPIRY_MS) ∧
    mapGet (getqrEndpoint "online" currentQR qrImageDataUrl encode (some pn)
        libResult code sessionId seedHash nowMs reg).1 code =
      some (freshRecord code sessionId seedHash nowMs currentQR
        qrImageDataUrl
        (some (validateAndFormatPhoneNumber libResult pn).formatted)
        (some (validateAndFormatPhoneNumber libResult pn).country)) := by
  cases currentQR with
  | none =>
    have hred : getqrEndpoint "online" none qrImageDataUrl encode (some pn)
        libResult code sessionId seedHash nowMs reg =
        (let gen := generateNewPairingCode code sessionId seedHash nowMs
          none qrImageDataUrl
          (some (validateAndFormatPhoneNumber libResult pn).formatted)
          (some (validateAndFormatPhoneNumber libResult pn).country) reg
        (gen.1,
         { status := 200
           success := true
           code := some gen.2.code
           displayCode := some gen.2.displayCode
           phoneNumber :=
             some (validateAndFormatPhoneNumber libResult pn).formatted
           country :=
             some (validateAndFormatPhoneNumber libResult pn).country
           sessionId := some gen.2.sessionId
           expiresAt := some gen.2.expiresAt
           qrImage := some none
           message := "Service is online. Use the pairing code to link." })) := by
      simp only [getqrEndpoint]
      rw [if_neg (by simp [hval])]
      simp
    rw [hred]
    exact ⟨rfl, rfl, rfl, rfl, rfl, rfl, rfl,
      mapGet_mapSet_self reg code _⟩
  | some q =>
    have hred : getqrEndpoint "online" (some q) qrImageDataUrl encode
        (some pn) libResult code sessionId seedHash nowMs reg =
        (let gen := generateNewPairingCode code sessionId seedHash nowMs
          (some q) qrImageDataUrl
          (some (validateAndFormatPhoneNumber libResult pn).formatted)
          (some (validateAndFormatPhoneNumber libResult pn).country) reg
        (gen.1,
         { status := 200
           success := true
           code := some gen.2.code
           displayCode := some gen.2.displayCode
           phoneNumber :=
             some (validateAndFormatPhoneNumber libResult pn).formatted
           country :=
             some (validateAndFormatPhoneNumber libResult pn).country
           sessionId := some gen.2.sessionId
           expiresAt := some gen.2.expiresAt
           qrImage := some none
           message := "Service is online. Use the pairing code to link." })) := by
      simp only [getqrEndpoint]
      rw [if_neg (by simp [hval])]
      simp
    rw [hred]
    exact ⟨rfl, rfl, rfl, rfl, rfl, rfl, rfl,
      mapGet_mapSet_self reg code _⟩

/-- Witness for C10 at a concrete valid number and empty registry. -/
theorem c10_getqr_online_null_qr_witness :
    (getqrEndpoint "online" none none (fun q => q) (some "0712345678") none
      "EEEE5555" "SID5" (fun _ => 4) 700 []).2.qrImage = some none ∧
    (getqrEndpoint "online" none none (fun q => q) (some "0712345678") none
      "EEEE5555" "SID5" (fun _ => 4) 700 []).2.status = 200 :=
  ⟨(c10_getqr_online_null_qr none none (fun q => q) none "0712345678"
      "EEEE5555" "SID5" (fun _ => 4) 700 [] (by decide)).2.2.1,
   (c10_getqr_online_null_qr none none (fun q => q) none "0712345678"
      "EEEE5555" "SID5" (fun _ => 4) 700 [] (by decide)).1⟩

end PairingServer
